import Mathlib

/-!
# Verification of the weaver RPC core

A shallow embedding of the weaver repository's core mechanisms, translated
from the Python sources:

* `src/weaver/errors.py` — the dependency-error classifier;
* `src/weaverd/rpc.py` — the RPC dispatcher and result normalisation;
* `src/weaverd/server.py` — the module-level handler registration path;
* `src/weaver/client.py` — the RPC caller, response streaming and the
  auto-start supervisor;
* `src/weaver/sockets.py` — the reachability probe;
* `src/weaver_schemas/*.py` — the wire record schemas.

The wire codec (`msgspec.json`) is an external library; it is modelled at the
level of the JSON abstract syntax tree: encoding a record produces a `Json`
value and decoding consumes one.  The textual JSON layer (printing a `Json`
value to one line of UTF-8 and parsing it back) is treated as the identity on
the AST.  Python `float` values are modelled by the rationals they denote
(every finite IEEE-754 double is a rational, and the AST carries the value
verbatim).
-/

namespace Weaver

/-- JSON values as an abstract syntax tree.  Objects keep their fields as an
ordered association list, mirroring the insertion order of Python dicts.
Integers (`jint`) and floats (`jnum`) are kept apart because the Python
schemas distinguish `int` and `float` fields. -/
inductive Json where
  | jnull
  | jbool (b : Bool)
  | jint (n : Int)
  | jnum (q : ℚ)
  | jstr (s : String)
  | jarr (items : List Json)
  | jobj (fields : List (String × Json))

/-- `dict.get(key)`: first binding of `key` in the association list, `none`
when the key is absent (Python dict keys are unique, so first-match agrees
with dict semantics). -/
def lookupField : List (String × Json) → String → Option Json
  | [], _ => none
  | (k, v) :: rest, key => if k = key then some v else lookupField rest key

/-- Python `==` between a `dict.get` result (Python `None` when the key is
absent) and a `str` literal: true exactly when the value is that string
(Python equality between values of different types is `False`). -/
def pyEqStr : Option Json → String → Bool
  | some (.jstr s), t => s == t
  | _, _ => false

/-- Python truthiness of a JSON-modelled value (`bool(v)`). -/
def jsonTruthy : Json → Bool
  | .jnull => false
  | .jbool b => b
  | .jint n => n != 0
  | .jnum q => q != 0
  | .jstr s => s != ""
  | .jarr l => !l.isEmpty
  | .jobj l => !l.isEmpty

/-- Truthiness of a `dict.get` result: an absent key yields Python `None`,
which is falsy. -/
def jsonTruthyOpt : Option Json → Bool
  | none => false
  | some v => jsonTruthy v

/-- Python `str()` applied to a JSON-modelled value.  Only the string and
`None` cases are ever reached by the classifier's callers; the container and
numeric renderings are inessential approximations of `repr`. -/
def pyStrConv : Json → String
  | .jstr s => s
  | .jnull => "None"
  | .jbool true => "True"
  | .jbool false => "False"
  | .jint n => toString n
  | .jnum q => toString q
  | .jarr _ => "[...]"
  | .jobj _ => "\x7b...\x7d"

/-! ## Dependency-error classifier (`src/weaver/errors.py`)

The two module-level regular expressions are embedded as executable searchers
over lower-cased character lists (`re.IGNORECASE` is realised by lower-casing
the subject; `\w`, `\s` and `\b` are interpreted over ASCII, which covers
every string the repository ever matches). -/

/-- `\w`: a word character, `[a-zA-Z0-9_]`. -/
def isWordChar (c : Char) : Bool := c.isAlphanum || c = '_'

/-- ASCII lower-casing of one character (`str.lower`, restricted to the ASCII
range the repository's patterns and messages use). -/
def asciiLower (c : Char) : Char :=
  if 'A' ≤ c && c ≤ 'Z' then Char.ofNat (c.toNat + 32) else c

/-- The characters of `s.lower()`, as a list. -/
def lowerChars (s : String) : List Char := s.data.map asciiLower

/-- Consume a literal from the front of the input; `some rest` on success. -/
def dropLit : List Char → List Char → Option (List Char)
  | [], rest => some rest
  | _ :: _, [] => none
  | l :: ls, c :: cs => if c = l then dropLit ls cs else none

/-- `\s*\w`: skip whitespace, then require one word character. -/
def skipSpacesThenWord : List Char → Bool
  | [] => false
  | c :: cs => if c.isWhitespace then skipSpacesThenWord cs else isWordChar c

/-- The part of `\bmissing dependency\b[:\-]?\s*\w+` after the literal:
the word boundary after `y`, the optional `:`/`-`, whitespace, and one word
character (the `\w+` needs only its first character to exist). -/
def missingDepTail : List Char → Bool
  | [] => false
  | c :: cs =>
    if isWordChar c then false
    else if c = ':' || c = '-' then skipSpacesThenWord cs
    else skipSpacesThenWord (c :: cs)

/-- Match `_missing_dep_pattern` at the head of `cs` (boundary before the
literal is checked by the caller). -/
def missingDepAt (cs : List Char) : Bool :=
  match dropLit "missing dependency".toList cs with
  | some rest => missingDepTail rest
  | none => false

/-- Search loop for `_missing_dep_pattern`: try each position whose previous
character is not a word character (the leading `\b`). -/
def searchMissingDepFrom : Bool → List Char → Bool
  | _, [] => false
  | prevWord, c :: cs =>
    (!prevWord && missingDepAt (c :: cs)) || searchMissingDepFrom (isWordChar c) cs

/-- `_missing_dep_pattern.search(msg)` of `errors.py`:
`\bmissing dependency\b[:\-]?\s*\w+` with `re.IGNORECASE`. -/
def missingDepSearch (s : String) : Bool :=
  searchMissingDepFrom false (lowerChars s)

/-- One of the three alternatives `not found|unavailable|missing` starts
here. -/
def altHere (cs : List Char) : Bool :=
  (dropLit "not found".toList cs).isSome
    || (dropLit "unavailable".toList cs).isSome
    || (dropLit "missing".toList cs).isSome

/-- `.*(not found|unavailable|missing)`: scan forward for an alternative;
`.` does not cross a newline (no `re.DOTALL`). -/
def scanForAlt : List Char → Bool
  | [] => false
  | c :: cs => altHere (c :: cs) || (if c = '\n' then false else scanForAlt cs)

/-- After the literal `serena[- ]agent`: the word boundary after `t`, then
the scan for an alternative. -/
def serenaAgentTail : List Char → Bool
  | [] => false
  | c :: cs => if isWordChar c then false else scanForAlt (c :: cs)

/-- Match `_serena_agent_pattern` at the head of `cs`. -/
def serenaAgentAt (cs : List Char) : Bool :=
  match dropLit "serena".toList cs with
  | none => false
  | some rest =>
    match rest with
    | [] => false
    | c :: cs2 =>
      if c = '-' || c = ' ' then
        match dropLit "agent".toList cs2 with
        | some rest2 => serenaAgentTail rest2
        | none => false
      else false

/-- Search loop for `_serena_agent_pattern` with its leading `\b`. -/
def searchSerenaAgentFrom : Bool → List Char → Bool
  | _, [] => false
  | prevWord, c :: cs =>
    (!prevWord && serenaAgentAt (c :: cs)) || searchSerenaAgentFrom (isWordChar c) cs

/-- `_serena_agent_pattern.search(msg)` of `errors.py`:
`\bserena[- ]agent\b.*(not found|unavailable|missing)` with `re.IGNORECASE`. -/
def serenaAgentSearch (s : String) : Bool :=
  searchSerenaAgentFrom false (lowerChars s)

/-- The members of `DependencyErrorCode` (`errors.py`, lines 11–17), as the
strings a `StrEnum` member equals. -/
def dependencyErrorCodes : List String :=
  ["MISSING_DEPENDENCY", "SERENA_AGENT_NOT_FOUND",
   "DEPENDENCY_UNAVAILABLE", "DEPENDENCY_VERSION_MISMATCH"]

/-- The `match code` arms: a value matches a `DependencyErrorCode` pattern
exactly when it is a string equal to one of the four member values. -/
def codeInDependencySet : Json → Bool
  | .jstr s => dependencyErrorCodes.contains s
  | _ => false

/-- `is_dependency_error(record)` (`errors.py`, lines 27–48).  The record is
the decoded JSON object (a Python dict).  `record.get("error_code") or
record.get("code")` takes the first truthy of the two lookups, with Python
`None` (modelled `Json.jnull`) when both fail; `record.get("message", "")`
defaults to the empty string only when the key is absent. -/
def is_dependency_error (record : List (String × Json)) : Bool :=
  if !(pyEqStr (lookupField record "type") "error") then false
  else
    let rawCode := lookupField record "error_code"
    let code :=
      if jsonTruthyOpt rawCode then rawCode.getD .jnull
      else (lookupField record "code").getD .jnull
    if codeInDependencySet code then true
    else
      let msg := pyStrConv ((lookupField record "message").getD (.jstr ""))
      missingDepSearch msg || serenaAgentSearch msg

/-! ## Wire record schemas (`src/weaver_schemas/*.py`)

Each `msgspec.Struct` becomes a Lean structure.  Encoding produces the JSON
object msgspec emits: every field in declaration order (msgspec does not omit
defaults), with the `type` discriminator literal last.  Decoding follows
msgspec's strictness: required fields must be present and well-typed, a field
with a default may be absent, a present `type` discriminator must equal the
literal, unknown fields are ignored. -/

/-- `primitives.Position`: a point in a text file. -/
structure Position where
  line : Int
  character : Int

/-- `primitives.Range`: a span of text between two positions. -/
structure Range where
  start : Position
  stop : Position

/-- `primitives.Location`: a range of text within a file.  (The Python field
`end` of `Range` is named `stop` here because `end` is a Lean keyword.) -/
structure Location where
  file : String
  range : Range

/-- The `Literal["Error", "Warning", "Info", "Hint"]` severity of
`diagnostics.Diagnostic`. -/
inductive Severity where
  | sevError
  | warning
  | info
  | hint

/-- `diagnostics.Diagnostic`: a compiler or linter message.  `code` is a
required field whose value may be `None`. -/
structure Diagnostic where
  location : Location
  severity : Severity
  code : Option String
  message : String

/-- `error.SchemaError`: a structured error message, discriminator
`type = "error"`. -/
structure SchemaError where
  message : String

/-- The `Literal["passed", "failed", "error", "skipped"]` status of
`reports.TestResult`. -/
inductive TestStatus where
  | passed
  | failed
  | statusError
  | skipped

/-- `reports.TestResult`: outcome of a project test run.  `output` defaults
to `None`. -/
structure TestResult where
  name : String
  status : TestStatus
  output : Option String := none

/-- `reports.OnboardingReport`: information gathered during onboarding. -/
structure OnboardingReport where
  details : String

/-- `reports.ImpactReport`: result of analysing a proposed change. -/
structure ImpactReport where
  diagnostics : List Diagnostic

/-- `status.ProjectStatus`: health and readiness details for the daemon.
`rss_mb` is a Python `float`, modelled by the rational it denotes. -/
structure ProjectStatus where
  pid : Int
  rss_mb : ℚ
  ready : Bool
  message : String

/-- Encoding of an `Option String` field value (`str | None`). -/
def encodeOptStr : Option String → Json
  | none => .jnull
  | some s => .jstr s

def severityStr : Severity → String
  | .sevError => "Error"
  | .warning => "Warning"
  | .info => "Info"
  | .hint => "Hint"

def testStatusStr : TestStatus → String
  | .passed => "passed"
  | .failed => "failed"
  | .statusError => "error"
  | .skipped => "skipped"

def encodePosition (p : Position) : Json :=
  .jobj [("line", .jint p.line), ("character", .jint p.character)]

def encodeRange (r : Range) : Json :=
  .jobj [("start", encodePosition r.start), ("end", encodePosition r.stop)]

def encodeLocation (l : Location) : Json :=
  .jobj [("file", .jstr l.file), ("range", encodeRange l.range)]

def encodeDiagnostic (d : Diagnostic) : Json :=
  .jobj [("location", encodeLocation d.location),
         ("severity", .jstr (severityStr d.severity)),
         ("code", encodeOptStr d.code),
         ("message", .jstr d.message),
         ("type", .jstr "diagnostic")]

def encodeSchemaError (e : SchemaError) : Json :=
  .jobj [("message", .jstr e.message), ("type", .jstr "error")]

def encodeTestResult (t : TestResult) : Json :=
  .jobj [("name", .jstr t.name),
         ("status", .jstr (testStatusStr t.status)),
         ("output", encodeOptStr t.output),
         ("type", .jstr "test-result")]

def encodeOnboardingReport (r : OnboardingReport) : Json :=
  .jobj [("details", .jstr r.details), ("type", .jstr "onboarding")]

def encodeImpactReport (r : ImpactReport) : Json :=
  .jobj [("diagnostics", .jarr (r.diagnostics.map encodeDiagnostic)),
         ("type", .jstr "impact")]

def encodeProjectStatus (s : ProjectStatus) : Json :=
  .jobj [("pid", .jint s.pid),
         ("rss_mb", .jnum s.rss_mb),
         ("ready", .jbool s.ready),
         ("message", .jstr s.message),
         ("type", .jstr "project-status")]

/-- Decode a JSON value into a `str` field. -/
def asStr : Json → Option String
  | .jstr s => some s
  | _ => none

/-- Decode a JSON value into an `int` field. -/
def asInt : Json → Option Int
  | .jint n => some n
  | _ => none

/-- Decode a JSON value into a `float` field (msgspec also accepts a JSON
integer there). -/
def asNum : Json → Option ℚ
  | .jnum q => some q
  | .jint n => some (n : ℚ)
  | _ => none

/-- Decode a JSON value into a `bool` field. -/
def asBool : Json → Option Bool
  | .jbool b => some b
  | _ => none

/-- Decode a JSON value into a `str | None` field. -/
def asOptStr : Json → Option (Option String)
  | .jnull => some none
  | .jstr s => some (some s)
  | _ => none

/-- A defaulted `type: Literal[tag] = tag` discriminator: the field may be
absent; when present it must equal the literal. -/
def checkTag (fields : List (String × Json)) (tag : String) : Bool :=
  match lookupField fields "type" with
  | none => true
  | some (.jstr s) => s == tag
  | some _ => false

def decodePosition : Json → Option Position
  | .jobj fields => do
    let l ← lookupField fields "line" >>= asInt
    let c ← lookupField fields "character" >>= asInt
    pure ⟨l, c⟩
  | _ => none

def decodeRange : Json → Option Range
  | .jobj fields => do
    let s ← lookupField fields "start" >>= decodePosition
    let e ← lookupField fields "end" >>= decodePosition
    pure ⟨s, e⟩
  | _ => none

def decodeLocation : Json → Option Location
  | .jobj fields => do
    let f ← lookupField fields "file" >>= asStr
    let r ← lookupField fields "range" >>= decodeRange
    pure ⟨f, r⟩
  | _ => none

def decodeSeverity : Json → Option Severity
  | .jstr "Error" => some .sevError
  | .jstr "Warning" => some .warning
  | .jstr "Info" => some .info
  | .jstr "Hint" => some .hint
  | _ => none

def decodeTestStatus : Json → Option TestStatus
  | .jstr "passed" => some .passed
  | .jstr "failed" => some .failed
  | .jstr "error" => some .statusError
  | .jstr "skipped" => some .skipped
  | _ => none

def decodeDiagnostic : Json → Option Diagnostic
  | .jobj fields => do
    let loc ← lookupField fields "location" >>= decodeLocation
    let sev ← lookupField fields "severity" >>= decodeSeverity
    let code ← lookupField fields "code" >>= asOptStr
    let msg ← lookupField fields "message" >>= asStr
    if checkTag fields "diagnostic" then pure ⟨loc, sev, code, msg⟩ else none
  | _ => none

def decodeSchemaError : Json → Option SchemaError
  | .jobj fields => do
    let msg ← lookupField fields "message" >>= asStr
    if checkTag fields "error" then pure ⟨msg⟩ else none
  | _ => none

def decodeTestResult : Json → Option TestResult
  | .jobj fields => do
    let n ← lookupField fields "name" >>= asStr
    let st ← lookupField fields "status" >>= decodeTestStatus
    let outp ← match lookupField fields "output" with
      | none => some none
      | some v => asOptStr v
    if checkTag fields "test-result" then pure ⟨n, st, outp⟩ else none
  | _ => none

def decodeOnboardingReport : Json → Option OnboardingReport
  | .jobj fields => do
    let d ← lookupField fields "details" >>= asStr
    if checkTag fields "onboarding" then pure ⟨d⟩ else none
  | _ => none

/-- Decode each element of a `tuple[Diagnostic, ...]` field; any failing
element fails the whole field. -/
def decodeDiagnosticList : List Json → Option (List Diagnostic)
  | [] => some []
  | j :: js => do
    let d ← decodeDiagnostic j
    let ds ← decodeDiagnosticList js
    pure (d :: ds)

def decodeImpactReport : Json → Option ImpactReport
  | .jobj fields => do
    let dv ← lookupField fields "diagnostics"
    let ds ← match dv with
      | .jarr items => decodeDiagnosticList items
      | _ => none
    if checkTag fields "impact" then pure ⟨ds⟩ else none
  | _ => none

def decodeProjectStatus : Json → Option ProjectStatus
  | .jobj fields => do
    let p ← lookupField fields "pid" >>= asInt
    let r ← lookupField fields "rss_mb" >>= asNum
    let rd ← lookupField fields "ready" >>= asBool
    let m ← lookupField fields "message" >>= asStr
    if checkTag fields "project-status" then pure ⟨p, r, rd, m⟩ else none
  | _ => none

/-! ## RPC dispatcher (`src/weaverd/rpc.py`)

`handle` consumes one decoded request line (as the JSON value the wire text
parses to) and produces the ordered list of response chunks (as the JSON
values whose one-line encodings are written back).  A handler is a function
from the keyword-argument mapping to either an exception message or a result
value; result values are classified by runtime type inspection exactly as in
`_get_result_processor`. -/

/-- Generic `dict.get` over an association list. -/
def lookupKey {α : Type} : List (String × α) → String → Option α
  | [], _ => none
  | (k, v) :: rest, key => if k = key then some v else lookupKey rest key

/-- Python dict assignment `d[key] = v`: replaces the value in place when the
key exists (keeping its position, as Python 3.7+ dicts do), appends
otherwise. -/
def dictInsert {α : Type} : List (String × α) → String → α → List (String × α)
  | [], key, v => [(key, v)]
  | (k, w) :: rest, key, v =>
    if k = key then (k, v) :: rest else (k, w) :: dictInsert rest key v

/-- `RPCDispatcher.register(name)` applied to a handler (rpc.py, lines
34–39): `self._handlers[name] = func`, an unconditional dict assignment. -/
def register {α : Type} (handlers : List (String × α)) (name : String) (func : α) :
    List (String × α) :=
  dictInsert handlers name func

/-- `rpc_handler(name)` applied to a handler (server.py, lines 38–47): the
module-level registration path, which raises `ValueError` on a duplicate name
and otherwise appends to the `HANDLERS` list. -/
def rpc_handler {α : Type} (handlers : List (String × α)) (name : String) (func : α) :
    Except String (List (String × α)) :=
  if handlers.any (fun p => p.1 == name) then
    .error ("handler '" ++ name ++ "' already registered")
  else
    .ok (handlers ++ [(name, func)])

/-- A handler's runtime result value, as the dispatcher's type inspection
sees it:
* `pyBytes` — a `bytes`/`bytearray` blob, already encoded; it carries the
  record its bytes spell;
* `pyStr` — a `str`;
* `pyIter` — a synchronous iterable (list, tuple, generator): it produces
  `items` in order (each carried as the JSON value `msgspec` encodes it to)
  and then either stops (`failure = none`) or raises an exception with the
  given message;
* `pyAsyncIter` — an asynchronous iterable, same shape;
* `pyScalar` — any other, non-iterable object (a number, `None`, a
  `msgspec.Struct` instance), carried as the JSON value it encodes to. -/
inductive PyValue where
  | pyBytes (payload : Json)
  | pyStr (s : String)
  | pyIter (items : List Json) (failure : Option String)
  | pyAsyncIter (items : List Json) (failure : Option String)
  | pyScalar (v : Json)

/-- `isinstance(result, (bytes, bytearray))`. -/
def isBytesLike : PyValue → Bool
  | .pyBytes _ => true
  | _ => false

/-- `hasattr(result, "__aiter__")`: only asynchronous iterables have it. -/
def hasAiter : PyValue → Bool
  | .pyAsyncIter _ _ => true
  | _ => false

/-- `isinstance(result, str)`. -/
def isStr : PyValue → Bool
  | .pyStr _ => true
  | _ => false

/-- `isinstance(result, typing.Iterable)`: bytes, strings and synchronous
iterables are `Iterable`; an async iterable is not (it only has `__aiter__`);
the remaining scalars are not. -/
def isIterable : PyValue → Bool
  | .pyBytes _ => true
  | .pyStr _ => true
  | .pyIter _ _ => true
  | .pyAsyncIter _ _ => false
  | .pyScalar _ => false

/-- The four result processors a result can be routed to. -/
inductive ProcessorTag where
  | bytesTag
  | asyncTag
  | syncTag
  | singleTag
deriving DecidableEq

/-- `RPCDispatcher._get_result_processor` (rpc.py, lines 90–99): the
type-inspection chain, in source order. -/
def get_result_processor (result : PyValue) : ProcessorTag :=
  if isBytesLike result then .bytesTag
  else if hasAiter result then .asyncTag
  else if isIterable result && !(isStr result || isBytesLike result) then .syncTag
  else .singleTag

/-- `msjson.encode(result)` for the values that reach
`_process_single_result`: a string encodes to a JSON string, any other
scalar is carried as its own encoding.  The remaining constructors never
reach this function (they are routed to the other processors); their rows
are given inert values. -/
def encodeValue : PyValue → Json
  | .pyStr s => .jstr s
  | .pyScalar v => v
  | .pyBytes p => p
  | .pyIter items _ => .jarr items
  | .pyAsyncIter _ _ => .jnull

/-- `RPCDispatcher._encode_error` (rpc.py, lines 41–43):
`msjson.encode(SchemaError(message=message))`. -/
def encode_error (message : String) : Json :=
  encodeSchemaError ⟨message⟩

/-- `RPCDispatcher._process_bytes_result` (rpc.py, lines 64–67): yield the
blob verbatim as a single chunk. -/
def process_bytes_result (payload : Json) : List Json :=
  [payload]

/-- `RPCDispatcher._process_async_iterable_result` (rpc.py, lines 69–76):
yield the encoding of each produced item; if the source raises after the
items, yield one error chunk with the exception's message, then stop. -/
def process_async_iterable_result : List Json → Option String → List Json
  | [], none => []
  | [], some m => [encode_error m]
  | item :: rest, failure => item :: process_async_iterable_result rest failure

/-- `RPCDispatcher._process_sync_iterable_result` (rpc.py, lines 78–85): the
same contract as the asynchronous case, driven eagerly. -/
def process_sync_iterable_result : List Json → Option String → List Json
  | [], none => []
  | [], some m => [encode_error m]
  | item :: rest, failure => item :: process_sync_iterable_result rest failure

/-- `RPCDispatcher._process_single_result` (rpc.py, lines 87–88): one chunk,
the encoding of the whole value. -/
def process_single_result (result : PyValue) : List Json :=
  [encodeValue result]

/-- The blob carried by a `pyBytes` result (projection used to apply the
selected processor). -/
def bytesPayload : PyValue → Json
  | .pyBytes p => p
  | _ => .jnull

/-- The items produced by an iterable result. -/
def iterItems : PyValue → List Json
  | .pyIter items _ => items
  | .pyAsyncIter items _ => items
  | _ => []

/-- The terminal failure of an iterable result, if any. -/
def iterFailure : PyValue → Option String
  | .pyIter _ f => f
  | .pyAsyncIter _ f => f
  | _ => none

/-- `RPCDispatcher._process_result` (rpc.py, lines 101–104): select the
processor for the result's runtime type and drain it. -/
def process_result (result : PyValue) : List Json :=
  match get_result_processor result with
  | .bytesTag => process_bytes_result (bytesPayload result)
  | .asyncTag => process_async_iterable_result (iterItems result) (iterFailure result)
  | .syncTag => process_sync_iterable_result (iterItems result) (iterFailure result)
  | .singleTag => process_single_result result

/-- `RPCRequest` (rpc.py, lines 21–25): `method` required, `params` an
optional mapping defaulting to `None`. -/
structure RPCRequest where
  method : String
  params : Option (List (String × Json))

/-- `RPCDispatcher._decode_request` (rpc.py, lines 45–49), following
msgspec's decoding of `RPCRequest`: the line must spell an object with a
string `method`; `params` may be absent, `null`, or an object.  The error
text stands in for msgspec's detailed message (`handle` only prefixes it). -/
def decode_request (data : Json) : Except String RPCRequest :=
  match data with
  | .jobj fields =>
    match lookupField fields "method" with
    | some (.jstr m) =>
      match lookupField fields "params" with
      | none => .ok ⟨m, none⟩
      | some .jnull => .ok ⟨m, none⟩
      | some (.jobj ps) => .ok ⟨m, some ps⟩
      | some _ => .error "expected dict or null at params"
    | some _ => .error "expected str at method"
    | none => .error "object missing required field method"
  | _ => .error "expected object"

/-- A handler, as `_execute_handler` consumes it: applied to the
keyword-argument mapping derived from `params`, it either raises (an
exception with the given message — binding failures included, since the
call happens inside the `try`) or returns a result value.  `await` on a
suspending handler is completion of this application. -/
def Handler : Type :=
  List (String × Json) → Except String PyValue

/-- `RPCDispatcher._execute_handler` (rpc.py, lines 51–62): an absent
handler yields the `unknown method` error; an exception escaping the handler
yields an error chunk with the exception's message. -/
def execute_handler (handler : Option Handler) (request : RPCRequest) :
    Except Json PyValue :=
  match handler with
  | none => .error (encode_error ("unknown method: " ++ request.method))
  | some f =>
    match f (request.params.getD []) with
    | .error exc => .error (encode_error exc)
    | .ok result => .ok result

/-- `RPCDispatcher.handle` (rpc.py, lines 106–120): decode the request (one
error chunk and stop on failure), look up and execute the handler (one error
chunk and stop on failure), then normalise the result into the ordered chunk
stream. -/
def handle (handlers : List (String × Handler)) (data : Json) : List Json :=
  match decode_request data with
  | .error e => [encode_error ("invalid request: " ++ e)]
  | .ok request =>
    match execute_handler (lookupKey handlers request.method) request with
    | .error err => [err]
    | .ok result => process_result result

/-! ## Reachability probe (`src/weaver/sockets.py`) -/

/-- The possible outcomes of the bounded-timeout connect attempt inside
`can_connect`: success, or one of the transport-level failures the spec
enumerates (any other OS-level failure is an `OSError` with some detail). -/
inductive ConnectOutcome where
  | success
  | noSocketFile
  | refused
  | permissionDenied
  | timedOut
  | transportFailure (detail : String)
deriving DecidableEq

/-- The Python exception classes relevant to the probe. -/
inductive PyExc where
  | fileNotFoundError
  | connectionRefusedError
  | permissionError
  | timeoutError
  | osError (detail : String)
deriving DecidableEq

/-- `anyio.connect_unix` under `anyio.fail_after(timeout)`: the stream (as a
unit handle) on success, the corresponding exception otherwise. -/
def connect_unix : ConnectOutcome → Except PyExc Unit
  | .success => .ok ()
  | .noSocketFile => .error .fileNotFoundError
  | .refused => .error .connectionRefusedError
  | .permissionDenied => .error .permissionError
  | .timedOut => .error .timeoutError
  | .transportFailure d => .error (.osError d)

/-- The `except` tuple of `can_connect` (sockets.py, lines 13–19):
`FileNotFoundError, ConnectionRefusedError, PermissionError, TimeoutError,
OSError`. -/
def probeCatches : PyExc → Bool
  | .fileNotFoundError => true
  | .connectionRefusedError => true
  | .permissionError => true
  | .timeoutError => true
  | .osError _ => true

/-- `can_connect(path, timeout)` (sockets.py, lines 8–23).  The result pair
is (returned boolean, whether the probe stream was opened and closed); a
caught exception yields `False` with no stream ever opened, success closes
the probe stream (`await stream.aclose()`) and yields `True`.  An uncaught
exception would surface as `.error`. -/
def can_connect (o : ConnectOutcome) : Except PyExc (Bool × Bool) :=
  match connect_unix o with
  | .error e => if probeCatches e then .ok (false, false) else .error e
  | .ok _ => .ok (true, true)

/-! ## Auto-start supervisor (`src/weaver/client.py`, lines 29–53) -/

/-- The `subprocess.Popen` configuration built by `spawn_daemon` (client.py,
lines 29–41), after the `WEAVER_DEBUG` environment toggle has been resolved
into `debug`. -/
structure SpawnConfig where
  stdinDevnull : Bool
  stdoutInherited : Bool
  stderrInherited : Bool
  startNewSession : Bool
deriving DecidableEq

/-- `spawn_daemon(socket_path, debug=...)`: stdin is always discarded;
stdout/stderr are inherited exactly when the debug toggle is set, discarded
otherwise; the child starts a new session (fully detached). -/
def spawn_daemon (debug : Bool) : SpawnConfig :=
  { stdinDevnull := true
    stdoutInherited := debug
    stderrInherited := debug
    startNewSession := true }

deriving instance DecidableEq for Except

/-- Trace of one run of the polling loop of `ensure_daemon_running`:
how many probes it made, how many 0.1-second sleeps it performed, and
whether it returned (`.ok`) or fell through to the `RuntimeError`. -/
structure PollRun where
  probesMade : Nat
  sleeps : Nat
  outcome : Except String Unit
deriving DecidableEq

/-- The `for _ in range(50)` loop of `ensure_daemon_running` (client.py,
lines 49–52), probing attempt `i`, then `i + 1`, … while fuel remains: a
successful probe returns at once; a failed probe sleeps 0.1 s and continues;
exhausting the loop reaches the `raise RuntimeError("weaverd failed to
start")` that follows it. -/
def poll_loop (probes : Nat → Bool) (i : Nat) : Nat → PollRun
  | 0 => ⟨0, 0, .error "weaverd failed to start"⟩
  | fuel + 1 =>
    if probes i then ⟨1, 0, .ok ()⟩
    else
      let rest := poll_loop probes (i + 1) fuel
      ⟨rest.probesMade + 1, rest.sleeps + 1, rest.outcome⟩

/-- Trace of `ensure_daemon_running` (client.py, lines 44–53): number of
`spawn_daemon` calls, total probes, total sleeps, and the outcome.  `probes n`
is the result of the (n+1)-th `can_connect` call: `probes 0` is the initial
probe; `probes 1 … probes 50` are the post-spawn attempts. -/
structure EnsureRun where
  spawns : Nat
  probesMade : Nat
  sleeps : Nat
  outcome : Except String Unit
deriving DecidableEq

/-- `ensure_daemon_running(socket_path)`: return immediately when the first
probe succeeds; otherwise spawn once and poll at most 50 more times. -/
def ensure_daemon_running (probes : Nat → Bool) : EnsureRun :=
  if probes 0 then ⟨0, 1, 0, .ok ()⟩
  else
    let p := poll_loop probes 1 50
    ⟨1, p.probesMade + 1, p.sleeps, p.outcome⟩

/-! ## RPC caller streaming (`src/weaver/client.py`, lines 56–114) -/

/-- One line read from the response stream, as `_process_response_line` sees
it: the raw text (written to the sink unconditionally) together with the
outcome of the best-effort `msjson.decode` — `malformed` when the decode
raises, otherwise the JSON value the line spells. -/
inductive ResponseLine where
  | malformed (raw : String)
  | wellFormed (raw : String) (record : Json)

/-- The raw text of a line. -/
def lineRaw : ResponseLine → String
  | .malformed raw => raw
  | .wellFormed raw _ => raw

/-- `_process_response_line(data, stdout)` (client.py, lines 56–75): write
the text to the sink, then best-effort decode for classification only — a
decode failure is logged and reported as `False`; a decoded record counts
only when it is a dict (`isinstance(record, dict)`) that
`is_dependency_error` flags. -/
def process_response_line : ResponseLine → String × Bool
  | .malformed raw => (raw, false)
  | .wellFormed raw record =>
    (raw,
      match record with
      | .jobj fields => is_dependency_error fields
      | _ => false)

/-- The dependency-error flag a line contributes. -/
def lineFlag (l : ResponseLine) : Bool :=
  (process_response_line l).2

/-- The `while data := await reader.readline()` loop of `_stream_response`
(client.py, lines 78–85), carrying the sequence of `stdout.write` calls made
so far and the `error` flag: every line is processed and written; a flagged
line only sets the flag and never stops the loop. -/
def streamLoop : List String → Bool → List ResponseLine → List String × Bool
  | out, err, [] => (out, err)
  | out, err, l :: ls =>
    let r := process_response_line l
    streamLoop (out ++ [r.1]) (err || r.2) ls

/-- `_stream_response(reader, stdout)`: drain the whole stream, returning
the writes made to the sink (in order) and whether any line flagged a
dependency error. -/
def stream_response (lines : List ResponseLine) : List String × Bool :=
  streamLoop [] false lines

/-- The tail of `rpc_call` (client.py, lines 104–114): after the stream has
fully drained, exit with code 1 (`typer.Exit(1)`) exactly when the error
flag was set; the written output is produced either way. -/
def rpc_call (lines : List ResponseLine) : List String × Except Nat Unit :=
  let r := stream_response lines
  (r.1, if r.2 then .error 1 else .ok ())

end Weaver

namespace Weaver

example : is_dependency_error
    [("type", .jstr "error"), ("error_code", .jstr "MISSING_DEPENDENCY")] = true := by decide

example : is_dependency_error
    [("type", .jstr "error"), ("message", .jstr "missing dependency: foo-lib")] = true := by
  decide

example : is_dependency_error
    [("type", .jstr "error"), ("error_code", .jstr "SOME_OTHER"),
     ("message", .jstr "irrelevant")] = false := by decide

example : is_dependency_error
    [("type", .jstr "error"), ("message", .jstr "Serena-Agent is not found here")] = true := by
  decide

/-- C2, counterexample: the record `{type: "error", error_code: "AGENT_NOT_FOUND"}`
is classified `false` — the string `AGENT_NOT_FOUND` is not a member of
`DependencyErrorCode` (the member is `SERENA_AGENT_NOT_FOUND`), and with no
message field the textual fallback sees the empty string. -/
theorem c2_agent_not_found_not_flagged :
    is_dependency_error
      [("type", .jstr "error"), ("error_code", .jstr "AGENT_NOT_FOUND")] = false := by
  decide

/-- C2, amended: the dependency-code set member for a missing agent is spelled
`SERENA_AGENT_NOT_FOUND`; the classifier returns `true` for the record
`{type: "error", error_code: "SERENA_AGENT_NOT_FOUND"}` with no message
field, because that code is a member of the fixed dependency-code set. -/
theorem c2_serena_agent_code_flagged :
    is_dependency_error
      [("type", .jstr "error"), ("error_code", .jstr "SERENA_AGENT_NOT_FOUND")] = true := by
  decide

/-- C6: for every record whose `type` field is anything other than the string
`"error"` (including an absent field), the classifier returns `false`,
regardless of any error code or message text the record carries. -/
theorem c6_wrong_discriminator_never_flagged (record : List (String × Json))
    (h : pyEqStr (lookupField record "type") "error" = false) :
    is_dependency_error record = false := by
  unfold is_dependency_error
  rw [h]
  simp

/-- C6, witness: the record `{type: "info", message: "agent not found"}` has
the wrong discriminator and is classified `false`. -/
theorem c6_wrong_discriminator_witness :
    is_dependency_error
      [("type", .jstr "info"), ("message", .jstr "agent not found")] = false :=
  c6_wrong_discriminator_never_flagged
    [("type", .jstr "info"), ("message", .jstr "agent not found")] (by decide)

/-- Inserting under a key makes it the key's binding (Python
`d[k] = v; d[k]` is `v`). -/
theorem lookupKey_dictInsert {α : Type} (m : List (String × α)) (k : String) (v : α) :
    lookupKey (dictInsert m k v) k = some v := by
  induction m with
  | nil => simp [dictInsert, lookupKey]
  | cons p rest ih =>
    obtain ⟨k0, v0⟩ := p
    by_cases h : k0 = k
    · simp [dictInsert, h, lookupKey]
    · simp [dictInsert, h, lookupKey, ih]

/-- C1, counterexample: with `RPCDispatcher.register`, a second registration
under the name `"m"` succeeds (the function has no failure outcome at all)
and replaces the original binding: after registering `1` and then `2` under
`"m"`, the table binds `"m"` to `2`, not to the original `1`. -/
theorem c1_register_overwrites :
    register (register ([] : List (String × Nat)) "m" 1) "m" 2 = [("m", 2)]
    ∧ lookupKey (register (register ([] : List (String × Nat)) "m" 1) "m" 2) "m" = some 2
    ∧ (some 2 ≠ some 1) := by
  refine ⟨rfl, rfl, by decide⟩

/-- C1, amended: only the module-level `rpc_handler` registration path
(server.py) rejects a duplicate name, raising `ValueError` with the message
`handler '<name>' already registered` and leaving the registry unchanged
(no new list is produced); a fresh name is appended.  `RPCDispatcher.register`
itself performs no duplicate check: it always succeeds and binds the name to
the newest handler, silently replacing any existing binding. -/
theorem c1_registration_paths (α : Type) (handlers : List (String × α))
    (name : String) (f : α) :
    (handlers.any (fun p => p.1 == name) = true →
      rpc_handler handlers name f = .error ("handler '" ++ name ++ "' already registered"))
    ∧ (handlers.any (fun p => p.1 == name) = false →
      rpc_handler handlers name f = .ok (handlers ++ [(name, f)]))
    ∧ lookupKey (register handlers name f) name = some f := by
  refine ⟨fun h => ?_, fun h => ?_, lookupKey_dictInsert handlers name f⟩
  · simp [rpc_handler, h]
  · simp [rpc_handler, h]

/-- C1, witness: on the table that already binds `"m"`, `rpc_handler`
rejects a second `"m"` registration with the `ValueError` message, while
`RPCDispatcher.register` rebinds `"m"` to the new handler. -/
theorem c1_registration_paths_witness :
    rpc_handler [("m", 1)] "m" (2 : Nat)
      = .error ("handler '" ++ "m" ++ "' already registered")
    ∧ lookupKey (register [("m", 1)] "m" (2 : Nat)) "m" = some 2 :=
  ⟨(c1_registration_paths Nat [("m", 1)] "m" 2).1 (by decide),
   (c1_registration_paths Nat [("m", 1)] "m" 2).2.2⟩

/-- C10: a plain-string result is routed to `_process_single_result`, not to
the synchronous-iterable processor — even though a Python `str` is an
`Iterable` — so the dispatcher emits exactly one chunk, the encoding of the
whole string as a single JSON string. -/
theorem c10_string_is_single_chunk (s : String) :
    get_result_processor (.pyStr s) = .singleTag
    ∧ isIterable (.pyStr s) = true
    ∧ process_result (.pyStr s) = [.jstr s] :=
  ⟨rfl, rfl, rfl⟩

/-- C5: for every dispatcher table and every well-formed request whose
method `X` is not registered, `handle` yields exactly one chunk, and that
chunk decodes to the error record with discriminator `"error"` and message
`unknown method: X`. -/
theorem c5_unknown_method (handlers : List (String × Handler)) (data : Json)
    (req : RPCRequest)
    (hdec : decode_request data = .ok req)
    (habs : lookupKey handlers req.method = none) :
    handle handlers data = [encode_error ("unknown method: " ++ req.method)]
    ∧ decodeSchemaError (encode_error ("unknown method: " ++ req.method))
        = some ⟨"unknown method: " ++ req.method⟩ := by
  constructor
  · simp [handle, hdec, execute_handler, habs]
  · rfl

/-- C5, witness: the empty dispatcher answers the request for method `"X"`
with the single `unknown method: X` error chunk. -/
theorem c5_unknown_method_witness :
    handle [] (.jobj [("method", .jstr "X")])
      = [encode_error ("unknown method: " ++ "X")]
    ∧ decodeSchemaError (encode_error ("unknown method: " ++ "X"))
        = some ⟨"unknown method: " ++ "X"⟩ :=
  c5_unknown_method [] (.jobj [("method", .jstr "X")]) ⟨"X", none⟩ rfl rfl

/-- Draining a synchronous iterable that fails after its items appends
exactly one error chunk. -/
theorem process_sync_iterable_failure (items : List Json) (m : String) :
    process_sync_iterable_result items (some m) = items ++ [encode_error m] := by
  induction items with
  | nil => rfl
  | cons x xs ih => simp [process_sync_iterable_result, ih]

/-- Draining an asynchronous iterable that fails after its items appends
exactly one error chunk. -/
theorem process_async_iterable_failure (items : List Json) (m : String) :
    process_async_iterable_result items (some m) = items ++ [encode_error m] := by
  induction items with
  | nil => rfl
  | cons x xs ih => simp [process_async_iterable_result, ih]

/-- C3: for a registered handler whose result is an asynchronous or a
synchronous sequence producing `items` in order and then raising an
exception with message `m`, `handle` emits exactly the encodings of the
items in production order followed by exactly one error chunk carrying `m`,
and nothing after it — `items.length + 1` chunks in all. -/
theorem c3_midstream_failure (handlers : List (String × Handler)) (data : Json)
    (req : RPCRequest) (f : Handler) (items : List Json) (m : String)
    (hdec : decode_request data = .ok req)
    (hf : lookupKey handlers req.method = some f) :
    (f (req.params.getD []) = .ok (.pyAsyncIter items (some m)) →
      handle handlers data = items ++ [encode_error m])
    ∧ (f (req.params.getD []) = .ok (.pyIter items (some m)) →
      handle handlers data = items ++ [encode_error m])
    ∧ (items ++ [encode_error m]).length = items.length + 1 := by
  refine ⟨fun hr => ?_, fun hr => ?_, by simp⟩
  · simp [handle, hdec, execute_handler, hf, hr, process_result,
      get_result_processor, isBytesLike, hasAiter, iterItems, iterFailure,
      process_async_iterable_failure]
  · simp [handle, hdec, execute_handler, hf, hr, process_result,
      get_result_processor, isBytesLike, hasAiter, isIterable, isStr,
      iterItems, iterFailure, process_sync_iterable_failure]

/-- C3, witness: a streaming handler that yields `1, 2` and then fails with
`"boom"` produces exactly the three chunks `1`, `2`,
`{type: "error", message: "boom"}`. -/
theorem c3_midstream_failure_witness :
    handle [("boom", fun _ => .ok (.pyAsyncIter [.jint 1, .jint 2] (some "boom")))]
        (.jobj [("method", .jstr "boom")])
      = [.jint 1, .jint 2, encode_error "boom"] :=
  (c3_midstream_failure
    [("boom", fun _ => .ok (.pyAsyncIter [.jint 1, .jint 2] (some "boom")))]
    (.jobj [("method", .jstr "boom")]) ⟨"boom", none⟩
    (fun _ => .ok (.pyAsyncIter [.jint 1, .jint 2] (some "boom")))
    [.jint 1, .jint 2] "boom" rfl rfl).1 rfl

/-- The streaming loop writes every line's raw text in order and ORs the
per-line flags onto the incoming error flag. -/
theorem streamLoop_spec (lines : List ResponseLine) :
    ∀ (out : List String) (err : Bool),
      streamLoop out err lines
        = (out ++ lines.map lineRaw, err || lines.any lineFlag) := by
  induction lines with
  | nil => intro out err; simp [streamLoop]
  | cons l ls ih =>
    intro out err
    have hstep : streamLoop out err (l :: ls)
        = streamLoop (out ++ [lineRaw l]) (err || lineFlag l) ls := by
      cases l <;> rfl
    rw [hstep, ih]
    simp [Bool.or_assoc]

/-- C4: the caller's stream handling, end to end: every line's raw text —
decodable or not — is written to the sink in arrival order; a line that
fails to decode contributes a `false` flag and never interrupts the
remaining lines; and the call exits with failure (exit code 1) if and only
if at least one line anywhere in the stream classifies as a dependency
error, the decision being a function of the fully drained stream. -/
theorem c4_stream_best_effort (lines : List ResponseLine) :
    rpc_call lines
      = (lines.map lineRaw,
         if lines.any lineFlag then .error 1 else .ok ())
    ∧ (∀ raw, lineFlag (.malformed raw) = false) := by
  constructor
  · simp [rpc_call, stream_response, streamLoop_spec]
  · intro raw; rfl

/-- C7: the reachability probe never raises: every transport-level failure —
socket file absent, connection refused, permission denied, timeout, or any
other OS-level failure — is caught and returned as the boolean `False`
(unreachable); a successful connect closes the probe stream and returns
`True`. -/
theorem c7_probe_total (o : ConnectOutcome) :
    (o = .success → can_connect o = .ok (true, true))
    ∧ (o ≠ .success → can_connect o = .ok (false, false)) := by
  constructor
  · rintro rfl; rfl
  · intro h
    cases o with
    | success => exact absurd rfl h
    | noSocketFile => rfl
    | refused => rfl
    | permissionDenied => rfl
    | timedOut => rfl
    | transportFailure d => rfl

/-- C7, witness: a successful connect probes `True` (closing the stream);
a refused connection probes `False` without raising. -/
theorem c7_probe_total_witness :
    can_connect .success = .ok (true, true)
    ∧ can_connect .refused = .ok (false, false) :=
  ⟨(c7_probe_total .success).1 rfl, (c7_probe_total .refused).2 (by decide)⟩

/-- If every probe in the loop's window fails, the loop makes exactly `fuel`
probes with `fuel` sleeps and falls through to the `RuntimeError`. -/
theorem poll_loop_all_fail (probes : Nat → Bool) :
    ∀ (fuel i : Nat), (∀ k, i ≤ k → k < i + fuel → probes k = false) →
      poll_loop probes i fuel = ⟨fuel, fuel, .error "weaverd failed to start"⟩ := by
  intro fuel
  induction fuel with
  | zero => intro i _; rfl
  | succ n ih =>
    intro i h
    have hi : probes i = false := h i le_rfl (by omega)
    have := ih (i + 1) (fun k hk1 hk2 => h k (by omega) (by omega))
    simp [poll_loop, hi, this]

/-- If the first success in the loop's window is at attempt `j`, the loop
probes each of `i … j` once (with a sleep after each failure) and returns. -/
theorem poll_loop_first_success (probes : Nat → Bool) :
    ∀ (fuel i j : Nat), i ≤ j → j < i + fuel → probes j = true →
      (∀ k, i ≤ k → k < j → probes k = false) →
      poll_loop probes i fuel = ⟨j - i + 1, j - i, .ok ()⟩ := by
  intro fuel
  induction fuel with
  | zero => intro i j h1 h2 _ _; omega
  | succ n ih =>
    intro i j hij hlt hj hmin
    by_cases h : probes i = true
    · have hij' : i = j := by
        by_contra hne
        have := hmin i le_rfl (by omega)
        rw [this] at h
        exact Bool.false_ne_true h
      subst hij'
      simp [poll_loop, h]
    · have hlt' : i < j := by
        rcases Nat.lt_or_ge i j with h1 | h1
        · exact h1
        · have : i = j := le_antisymm hij h1
          rw [this] at h; exact absurd hj h
      have hrec := ih (i + 1) j (by omega) (by omega)
        hj (fun k hk1 hk2 => hmin k (by omega) hk2)
      simp only [poll_loop, h, if_false, Bool.false_eq_true, hrec]
      simp only [PollRun.mk.injEq, and_true]
      omega

/-- C8: the supervisor's full contract.  With `probes n` the outcome of the
(n+1)-th reachability probe: (a) when the initial probe succeeds it returns
at once without spawning; (b) otherwise it spawns exactly once and polls at
most 50 more times with a 0.1-second sleep between attempts, returning at
the first success (at the first succeeding attempt `j` it has made `j + 1`
probes and `j - 1` sleeps); (c) when the initial and all 50 polled probes
fail it raises `RuntimeError("weaverd failed to start")`; and (d) the spawn
is detached (new session) with stdin discarded and stdout/stderr discarded
unless the debug toggle is set. -/
theorem c8_ensure_running (probes : Nat → Bool) (debug : Bool) :
    (probes 0 = true → ensure_daemon_running probes = ⟨0, 1, 0, .ok ()⟩)
    ∧ (∀ j, probes 0 = false → 1 ≤ j → j ≤ 50 → probes j = true →
        (∀ k, 1 ≤ k → k < j → probes k = false) →
        ensure_daemon_running probes = ⟨1, j + 1, j - 1, .ok ()⟩)
    ∧ ((∀ k, k ≤ 50 → probes k = false) →
        ensure_daemon_running probes
          = ⟨1, 51, 50, .error "weaverd failed to start"⟩)
    ∧ spawn_daemon debug
        = { stdinDevnull := true, stdoutInherited := debug,
            stderrInherited := debug, startNewSession := true } := by
  refine ⟨fun h0 => ?_, fun j h0 hj1 hj2 hj hmin => ?_, fun hall => ?_, rfl⟩
  · simp [ensure_daemon_running, h0]
  · have := poll_loop_first_success probes 50 1 j hj1 (by omega) hj hmin
    simp only [ensure_daemon_running, h0, Bool.false_eq_true, if_false, this]
    simp only [EnsureRun.mk.injEq, true_and, and_true]
    omega
  · have h0 : probes 0 = false := hall 0 (by omega)
    have := poll_loop_all_fail probes 50 1 (fun k hk1 hk2 => hall k (by omega))
    simp [ensure_daemon_running, h0, this]

/-- C8, witness: with the initial probe failing and the second polled
attempt succeeding, the supervisor spawns once, makes three probes with one
sleep, and returns; with the toggle off the spawned worker's streams are
discarded into a new session. -/
theorem c8_ensure_running_witness :
    ensure_daemon_running (fun n => n == 2) = ⟨1, 3, 1, .ok ()⟩
    ∧ spawn_daemon false
        = { stdinDevnull := true, stdoutInherited := false,
            stderrInherited := false, startNewSession := true } :=
  ⟨(c8_ensure_running (fun n => n == 2) false).2.1 2 (by decide) (by decide)
      (by decide) (by decide) (by intro k h1 h2; interval_cases k; decide),
   (c8_ensure_running (fun n => n == 2) false).2.2.2⟩

/-- Round-trip for `Position`. -/
theorem decodePosition_roundtrip (p : Position) :
    decodePosition (encodePosition p) = some p := by
  cases p; rfl

/-- Round-trip for `Range`. -/
theorem decodeRange_roundtrip (r : Range) :
    decodeRange (encodeRange r) = some r := by
  obtain ⟨⟨sl, sc⟩, ⟨el, ec⟩⟩ := r; rfl

/-- Round-trip for `Location`. -/
theorem decodeLocation_roundtrip (l : Location) :
    decodeLocation (encodeLocation l) = some l := by
  obtain ⟨file, ⟨⟨sl, sc⟩, ⟨el, ec⟩⟩⟩ := l; rfl

/-- Round-trip for `Diagnostic`, including a `None` code. -/
theorem decodeDiagnostic_roundtrip (d : Diagnostic) :
    decodeDiagnostic (encodeDiagnostic d) = some d := by
  obtain ⟨⟨file, ⟨⟨sl, sc⟩, ⟨el, ec⟩⟩⟩, sev, code, msg⟩ := d
  cases sev <;> cases code <;> rfl

/-- Round-trip for a list of diagnostics, elementwise. -/
theorem decodeDiagnosticList_roundtrip (l : List Diagnostic) :
    decodeDiagnosticList (l.map encodeDiagnostic) = some l := by
  induction l with
  | nil => rfl
  | cons d ds ih => simp [decodeDiagnosticList, decodeDiagnostic_roundtrip, ih]

/-- C9: for every success-record kind of the wire schemas — `SchemaError`,
`Diagnostic`, `TestResult`, `ProjectStatus`, `OnboardingReport`,
`ImpactReport` — decoding the wire encoding of a value yields the value
again, including when its optional fields are `None`/null. -/
theorem c9_encode_decode_roundtrip :
    (∀ v : SchemaError, decodeSchemaError (encodeSchemaError v) = some v)
    ∧ (∀ v : Diagnostic, decodeDiagnostic (encodeDiagnostic v) = some v)
    ∧ (∀ v : TestResult, decodeTestResult (encodeTestResult v) = some v)
    ∧ (∀ v : ProjectStatus, decodeProjectStatus (encodeProjectStatus v) = some v)
    ∧ (∀ v : OnboardingReport,
        decodeOnboardingReport (encodeOnboardingReport v) = some v)
    ∧ (∀ v : ImpactReport, decodeImpactReport (encodeImpactReport v) = some v) := by
  refine ⟨fun v => ?_, decodeDiagnostic_roundtrip, fun v => ?_, fun v => ?_,
    fun v => ?_, fun v => ?_⟩
  · cases v; rfl
  · obtain ⟨n, st, outp⟩ := v
    cases st <;> cases outp <;> rfl
  · cases v; rfl
  · cases v; rfl
  · obtain ⟨ds⟩ := v
    simp [encodeImpactReport, decodeImpactReport, lookupField, checkTag,
      decodeDiagnosticList_roundtrip]

end Weaver
